import Mathlib

/-!
Verification development for the neuro-quiplash repository.

The repository contains two near-duplicate implementations of a Quiplash
bridge for an external decision agent:

* src/neuro-quiplash.py - refactored version with a GameState class and a
  handle_json decorator around each decision handler;
* src/quiplash.py - original version with closure-based handlers.

This file shallowly embeds the decision handlers (set_name_action,
answer_action, vote_action), the room-code validation, and the
phase-coordination loop (handle_answer_phase, handle_voting_phase and the
main while-loop of run) as executable Lean functions, and proves the frozen
claims about them.

Modelling conventions:

* JSON values produced by json.loads are modelled by the inductive JVal.
  Floating-point JSON numbers are outside the model (no claim depends on
  them); all other JSON shapes are covered.
* Python strings are modelled by String; len counts code points in both.
* trio.Event is modelled by a Bool flag (set / not set); Event.wait is
  modelled by the awaitDecision function below, which returns immediately
  when the flag is already set and otherwise consumes agent submissions
  until one arms the flag, reporting a permanent block when none does.
* Exceptions are modelled with Except; the result of a handler is HRes,
  which distinguishes an ordinary return from an escaping exception.
-/

/-- JSON values as returned by json.loads (floating-point numbers omitted,
see the module docstring). Object fields keep their textual order; duplicate
keys are resolved last-wins by objGet, matching json.loads. -/
inductive JVal where
  | jnull : JVal
  | jbool : Bool → JVal
  | jint : Int → JVal
  | jstr : String → JVal
  | jarr : List JVal → JVal
  | jobj : List (String × JVal) → JVal

/-- Dictionary lookup. json.loads keeps the last occurrence of a duplicated
key, hence the left fold. -/
def objGet (l : List (String × JVal)) (k : String) : Option JVal :=
  l.foldl (fun acc p => if p.1 = k then some p.2 else acc) none

/-- Whether the pattern is an initial segment of the character list. -/
def leadMatch : List Char → List Char → Bool
  | [], _ => true
  | _ :: _, [] => false
  | p :: ps, c :: cs => p == c && leadMatch ps cs

/-- Whether the pattern occurs as a contiguous segment of the character
list. -/
def hasSub : List Char → List Char → Bool
  | [], pat => pat.isEmpty
  | c :: rest, pat => leadMatch pat (c :: rest) || hasSub rest pat

/-- Python substring containment (the `in` operator on strings). -/
def strContains (s pat : String) : Bool :=
  hasSub s.data pat.data

/-- Membership of a string needle in a Python list (string equality against
each element; Python string equality with a non-string is False). -/
def jarrHasStr (l : List JVal) (k : String) : Bool :=
  l.any fun v => match v with
    | .jstr s => s == k
    | _ => false

def typeErrNotIterable : String := "argument of type is not iterable"

def typeErrKeyError : String := "KeyError"

def typeErrListIndices : String := "list indices must be integers or slices, not str"

def typeErrStrIndices : String := "string indices must be integers"

def typeErrNotSubscriptable : String := "object is not subscriptable"

def typeErrNoLen : String := "object has no len()"

def typeErrBadIntLiteral : String := "invalid literal for int() with base 10"

def typeErrIntArg : String := "int() argument must be a string or a number"

/-- Python membership test `k in data` for a parsed JSON value: key lookup
for dicts, element test for lists, substring test for strings, TypeError
otherwise. -/
def pyContains (data : JVal) (k : String) : Except String Bool :=
  match data with
  | .jobj l => .ok (objGet l k).isSome
  | .jarr l => .ok (jarrHasStr l k)
  | .jstr s => .ok (strContains s k)
  | _ => .error typeErrNotIterable

/-- Python subscript `data[k]` with a string key: dict lookup for dicts,
TypeError for every other parsed JSON value. -/
def pySubscript (data : JVal) (k : String) : Except String JVal :=
  match data with
  | .jobj l =>
    match objGet l k with
    | some v => .ok v
    | none => .error typeErrKeyError
  | .jarr _ => .error typeErrListIndices
  | .jstr _ => .error typeErrStrIndices
  | _ => .error typeErrNotSubscriptable

/-- Python len() on a parsed JSON value: code-point count for strings,
element count for lists, key count for dicts, TypeError otherwise. -/
def pyLen (v : JVal) : Except String Nat :=
  match v with
  | .jstr s => .ok s.length
  | .jarr l => .ok l.length
  | .jobj l => .ok ((l.map Prod.fst).eraseDups.length)
  | _ => .error typeErrNoLen

/-- Python whitespace test used by str.strip and int(); ASCII whitespace
(Python additionally strips some Unicode spaces, which no claim exercises). -/
def pyIsSpace (c : Char) : Bool :=
  c == ' ' || c == '\t' || c == '\n' || c == '\r' || c == '\x0b' || c == '\x0c'

/-- Python str.strip(): remove leading and trailing whitespace. -/
def pyStrip (s : String) : String :=
  ⟨((s.data.dropWhile pyIsSpace).reverse.dropWhile pyIsSpace).reverse⟩

/-- Python str.isalpha(): nonempty and every character alphabetic (ASCII
approximation of the Unicode category test; all claims use ASCII inputs). -/
def pyIsAlpha (s : String) : Bool :=
  !s.data.isEmpty && s.data.all Char.isAlpha

def digitVal (c : Char) : Option Nat :=
  if c.isDigit then some (c.toNat - 48) else none

def parseNatDigits (cs : List Char) : Option Nat :=
  if cs.isEmpty then none
  else
    cs.foldl
      (fun acc c =>
        match acc, digitVal c with
        | some a, some d => some (a * 10 + d)
        | _, _ => none)
      (some 0)

/-- The numeric part of Python int() applied to a string: strip whitespace,
optional sign, nonempty run of decimal digits (digit-group underscores are
outside the model; no claim exercises them). -/
def parseIntString (s : String) : Option Int :=
  match (pyStrip s).data with
  | '-' :: rest => (parseNatDigits rest).map (fun n => -(n : Int))
  | '+' :: rest => (parseNatDigits rest).map (fun n => (n : Int))
  | cs => (parseNatDigits cs).map (fun n => (n : Int))

/-- Python int(x) on a parsed JSON value: identity on ints, 1/0 on bools,
string parsing on strings, TypeError otherwise. This is the coercion used by
the vote handler of src/quiplash.py. -/
def pyToInt (v : JVal) : Except String Int :=
  match v with
  | .jint n => .ok n
  | .jbool b => .ok (if b then 1 else 0)
  | .jstr s =>
    match parseIntString s with
    | some n => .ok n
    | none => .error typeErrBadIntLiteral
  | _ => .error typeErrIntArg

def reprNone : String := "None"

def reprTrue : String := "True"

def reprFalse : String := "False"

def sglq : String := "\x27"

def lbr : String := "["

def rbr : String := "]"

def lcurl : String := "\x7b"

def rcurl : String := "\x7d"

def commaSp : String := ", "

def colonSp : String := ": "

def emptyS : String := ""

mutual

/-- Python repr() of a parsed JSON value, used by the f-string debugging
messages of the handlers (simplified: strings always rendered with single
quotes, as Python does for quote-free strings). -/
def pyRepr : JVal → String
  | .jnull => reprNone
  | .jbool true => reprTrue
  | .jbool false => reprFalse
  | .jint n => toString n
  | .jstr s => sglq ++ s ++ sglq
  | .jarr l => lbr ++ pyReprSeq l ++ rbr
  | .jobj l => lcurl ++ pyReprFields l ++ rcurl

def pyReprSeq : List JVal → String
  | [] => emptyS
  | [v] => pyRepr v
  | v :: rest => pyRepr v ++ commaSp ++ pyReprSeq rest

def pyReprFields : List (String × JVal) → String
  | [] => emptyS
  | [(k, v)] => sglq ++ k ++ sglq ++ colonSp ++ pyRepr v
  | (k, v) :: rest => sglq ++ k ++ sglq ++ colonSp ++ pyRepr v ++ commaSp ++ pyReprFields rest

end

/-- Outcome of json.loads on the raw payload of a NeuroAction, as seen by a
handler: either the parsed value or the raised exception. -/
inductive PyErr where
  | jsonDecodeError : String → PyErr
  | otherError : String → PyErr

/-- Result of one handler invocation over state sigma: an ordinary return of
(success, message) together with the state after the call, or an exception
escaping the handler body (only possible in src/quiplash.py, whose handlers
have no catch-all wrapper). -/
inductive HRes (σ : Type) where
  | ret : Bool → String → σ → HRes σ
  | exc : String → σ → HRes σ

/-- Success flag of a handler result (an escaping exception is not a
successful return). -/
def HRes.success : HRes σ → Bool
  | .ret s _ _ => s
  | .exc _ _ => false

/-- State after a handler invocation. -/
def HRes.state : HRes σ → σ
  | .ret _ _ st => st
  | .exc _ st => st

def MAX_NAME_LENGTH : Nat := 12

def MAX_ANSWER_LENGTH : Nat := 45

def ROOMCODE_LENGTH : Nat := 4

def nameKey : String := "name"

def answerKey : String := "answer"

def voteKey : String := "vote"

def msgNameMissing : String := "Data must contain field \x27name\x27."

def msgNameBlank : String := "Received blank name. Must enter in a name."

def msgNameTooLong (n : Nat) : String :=
  "Received " ++ toString n ++ " character name. Name cannot exceed " ++
    toString MAX_NAME_LENGTH ++ " characters."

def msgAnswerMissing : String := "Data must contain field \x27answer\x27."

def msgAnswerBlank : String := "Received blank answer. Must enter in an answer."

def msgAnswerTooLong (n : Nat) : String :=
  "Received " ++ toString n ++ " answer. Answer cannot exceed " ++
    toString MAX_ANSWER_LENGTH ++ " characters."

def msgVoteMissing : String := "Data must contain field \x27vote\x27."

def msgVoteNotInt : String := "\x27vote\x27 must be an integer."

def msgVoteRange (count : Nat) : String :=
  "Invalid choice. Choices are from 1 to " ++ toString count ++ ", inclusive."

/-- All game state of src/neuro-quiplash.py (class GameState). username and
response hold whatever value the agent submitted (Python stores data[...]
unchecked for type); the trio.Event played is a Bool flag. -/
structure GameState where
  username : Option JVal
  response : Option JVal
  vote : Int
  vote_option_count : Nat
  played : Bool

/-- GameState.__init__ of src/neuro-quiplash.py. -/
def GameState.init : GameState :=
  ⟨none, none, -1, 0, false⟩

namespace NQ

/-- set_name_action of src/neuro-quiplash.py (body inside the handle_json
decorator), lines 281-298. -/
def set_name_action_body (data : JVal) (st : GameState) : HRes GameState :=
  match pyContains data nameKey with
  | .error m => .exc m st
  | .ok false => .ret false msgNameMissing st
  | .ok true =>
    match pySubscript data nameKey with
    | .error m => .exc m st
    | .ok v =>
      match pyLen v with
      | .error m => .exc m st
      | .ok n =>
        if n = 0 then .ret false msgNameBlank st
        else if n ≤ MAX_NAME_LENGTH then
          .ret true ("state.username = " ++ pyRepr v)
            { st with username := some v, played := true }
        else .ret false (msgNameTooLong n) st

/-- answer_action of src/neuro-quiplash.py (body inside the handle_json
decorator), lines 301-318. -/
def answer_action_body (data : JVal) (st : GameState) : HRes GameState :=
  match pyContains data answerKey with
  | .error m => .exc m st
  | .ok false => .ret false msgAnswerMissing st
  | .ok true =>
    match pySubscript data answerKey with
    | .error m => .exc m st
    | .ok v =>
      match pyLen v with
      | .error m => .exc m st
      | .ok n =>
        if n = 0 then .ret false msgAnswerBlank st
        else if n ≤ MAX_ANSWER_LENGTH then
          .ret true ("state.response = " ++ pyRepr v)
            { st with response := some v, played := true }
        else .ret false (msgAnswerTooLong n) st

/-- vote_action of src/neuro-quiplash.py (body inside the handle_json
decorator), lines 321-340: the value must be present, of int type exactly
(type(x) is int, so booleans fail), and in 1..vote_option_count; on success
the zero-based index is stored and the played event is set. -/
def vote_action_body (data : JVal) (st : GameState) : HRes GameState :=
  match pyContains data voteKey with
  | .error m => .exc m st
  | .ok false => .ret false msgVoteMissing st
  | .ok true =>
    match pySubscript data voteKey with
    | .error m => .exc m st
    | .ok v =>
      match v with
      | .jint n =>
        if n ≤ 0 ∨ n > (st.vote_option_count : Int) then
          .ret false (msgVoteRange st.vote_option_count) st
        else
          .ret true ("state.vote = " ++ toString (n - 1))
            { st with vote := n - 1, played := true }
      | _ => .ret false msgVoteNotInt st

/-- The handle_json decorator of src/neuro-quiplash.py, lines 64-81: decode
outcome errors and any exception escaping the wrapped body are converted to
a (False, message) return; the wrapper itself never raises. -/
def handle_json (f : JVal → GameState → HRes GameState)
    (dr : Except PyErr JVal) (st : GameState) : (Bool × String) × GameState :=
  match dr with
  | .error (.jsonDecodeError m) => ((false, "Invalid JSON: " ++ m), st)
  | .error (.otherError m) => ((false, "Unexpected error: " ++ m), st)
  | .ok data =>
    match f data st with
    | .ret s m st' => ((s, m), st')
    | .exc m st' => ((false, "Unexpected error: " ++ m), st')

/-- The decorated set_name_action handler as registered with the agent. -/
def set_name_action (dr : Except PyErr JVal) (st : GameState) :
    (Bool × String) × GameState :=
  handle_json set_name_action_body dr st

/-- The decorated answer_action handler as registered with the agent. -/
def answer_action (dr : Except PyErr JVal) (st : GameState) :
    (Bool × String) × GameState :=
  handle_json answer_action_body dr st

/-- The decorated vote_action handler as registered with the agent. -/
def vote_action (dr : Except PyErr JVal) (st : GameState) :
    (Bool × String) × GameState :=
  handle_json vote_action_body dr st

/-- The room-code gate of src/neuro-quiplash.py run(), lines 377-381: the
input is stripped, then the program returns before the join step unless the
result has length ROOMCODE_LENGTH and is alphabetic. The returned Bool is
true exactly when execution proceeds to the join step. -/
def roomcode_gate (input : String) : Bool :=
  let roomcode := pyStrip input
  if roomcode.length ≠ ROOMCODE_LENGTH || !pyIsAlpha roomcode then false
  else true

end NQ

/-- The closure state of src/quiplash.py run(): the nonlocal variables
username, response, vote, vote_option_count and the neuro_played event. -/
structure QState where
  username : JVal
  response : JVal
  vote : Int
  vote_option_count : Nat
  played : Bool

/-- Initial values of the nonlocal variables of src/quiplash.py run(),
lines 51-59. -/
def QState.init : QState :=
  ⟨.jstr emptyS, .jstr emptyS, -1, 0, false⟩

def msgInvalidJsonQ : String := "Invalid JSON, failed to unpack."

namespace Q

/-- set_name_action of src/quiplash.py, lines 61-81: only json.loads is
guarded by a try/except, so a TypeError from the membership test or from
len() on a non-sized value escapes the handler (HRes.exc). -/
def set_name_action (dr : Except PyErr JVal) (st : QState) : HRes QState :=
  match dr with
  | .error _ => .ret false msgInvalidJsonQ st
  | .ok data =>
    match pyContains data nameKey with
    | .error m => .exc m st
    | .ok false => .ret false msgNameMissing st
    | .ok true =>
      match pySubscript data nameKey with
      | .error m => .exc m st
      | .ok v =>
        match pyLen v with
        | .error m => .exc m st
        | .ok n =>
          if n = 0 then .ret false msgNameBlank st
          else if n ≤ MAX_NAME_LENGTH then
            .ret true ("data[\"name\"] = " ++ pyRepr v)
              { st with username := v, played := true }
          else .ret false (msgNameTooLong n) st

/-- answer_action of src/quiplash.py, lines 83-103. -/
def answer_action (dr : Except PyErr JVal) (st : QState) : HRes QState :=
  match dr with
  | .error _ => .ret false msgInvalidJsonQ st
  | .ok data =>
    match pyContains data answerKey with
    | .error m => .exc m st
    | .ok false => .ret false msgAnswerMissing st
    | .ok true =>
      match pySubscript data answerKey with
      | .error m => .exc m st
      | .ok v =>
        match pyLen v with
        | .error m => .exc m st
        | .ok n =>
          if n = 0 then .ret false msgAnswerBlank st
          else if n ≤ MAX_ANSWER_LENGTH then
            .ret true ("data[\"answer\"] = " ++ pyRepr v)
              { st with response := v, played := true }
          else .ret false (msgAnswerTooLong n) st

/-- vote_action of src/quiplash.py, lines 105-128: the subscript and the
int() coercion sit inside one try/except, so any value int() accepts (ints,
booleans, numeric strings) passes the type stage; only the range check
remains. -/
def vote_action (dr : Except PyErr JVal) (st : QState) : HRes QState :=
  match dr with
  | .error _ => .ret false msgInvalidJsonQ st
  | .ok data =>
    match pyContains data voteKey with
    | .error m => .exc m st
    | .ok false => .ret false msgVoteMissing st
    | .ok true =>
      match (pySubscript data voteKey).bind pyToInt with
      | .error _ => .ret false msgVoteNotInt st
      | .ok choice =>
        if choice ≤ 0 ∨ choice > (st.vote_option_count : Int) then
          .ret false (msgVoteRange st.vote_option_count) st
        else
          .ret true ("vote = " ++ toString (choice - 1))
            { st with vote := choice - 1, played := true }

/-- The room-code gate of src/quiplash.py run(), lines 53-54: a bare assert
on the length only; the alphabetic requirement is not checked. The returned
Bool is true exactly when execution proceeds past the assert towards the
join step. -/
def roomcode_gate (input : String) : Bool :=
  input.length = 4

end Q

/-- Python list indexing with a possibly-negative index: negative indices
count from the end (so -1 selects the last element); out-of-range indices
raise IndexError, modelled as none. -/
def pyIndex (l : List α) (i : Int) : Option α :=
  let j := if i < 0 then i + (l.length : Int) else i
  if 0 ≤ j then l.get? j.toNat else none

/-- The Selenium exceptions caught by the phase handlers:
NoSuchElementException, TimeoutException, ElementNotInteractableException. -/
inductive SurfErr where
  | noSuchElement : SurfErr
  | timedOut : SurfErr
  | notInteractable : SurfErr
deriving DecidableEq

/-- One observation of the surface by handle_answer_phase of
src/neuro-quiplash.py: the outcome of each Selenium lookup it performs, in
source order (lines 145-191). classAttr is get_attribute("class"), which
returns None when the attribute is missing. -/
structure AnswerEnv where
  statePage : Except SurfErr Unit
  classAttr : Option String
  questionText : Except SurfErr String
  answerBox : Except SurfErr Unit
  submitButton : Except SurfErr Unit

/-- One observation of the surface by handle_voting_phase of
src/neuro-quiplash.py (lines 211-267). voteButtons carries the button texts
found by the WebDriverWait on class quiplash2-vote-button. -/
structure VoteEnv where
  statePage : Except SurfErr Unit
  classAttr : Option String
  voteText : Except SurfErr String
  questionText : Except SurfErr String
  voteButtons : Except SurfErr (List String)
  clickOutcome : Except SurfErr Unit

def pageOffToken : String := "pt-page-off"

def waitForPlayersText : String := "Wait for the other players!"

/-- One concrete surface-application action performed by the coordinator:
typing the stored answer into the answer box, or clicking the vote button
selected by the stored (zero-based) vote against the button count. -/
inductive ApplyEv where
  | answerTyped : Option JVal → ApplyEv
  | voteClick : Int → Nat → ApplyEv

/-- Externally visible events of a stretch of the coordination loop:
how many action registrations (register_temporary_actions) and force-choice
directives (send_force_action) were issued, and which surface applications
ran. -/
structure Events where
  regs : Nat
  forces : Nat
  applies : List ApplyEv

def Events.none : Events := ⟨0, 0, []⟩

def Events.add (a b : Events) : Events :=
  ⟨a.regs + b.regs, a.forces + b.forces, a.applies ++ b.applies⟩

/-- trio.Event.wait on GameState.played while a decision window is open:
returns immediately when the event is already set, otherwise processes the
agent submissions of this window in order through the registered handler
until one sets the event. The Bool is false when no submission ever sets the
event, in which case the await suspends forever (there is no timeout in the
source). -/
def awaitDecision (h : Except PyErr JVal → GameState → (Bool × String) × GameState) :
    List (Except PyErr JVal) → GameState → Bool × GameState
  | [], st => (st.played, st)
  | s :: rest, st =>
    if st.played then (true, st) else awaitDecision h rest ((h s st).2)

/-- Outcome of one phase-handler call: an ordinary return with the Python
return value, or a forever-blocked await inside an open decision window.
Both carry the session state at that point and the events issued so far. -/
inductive PhaseOutcome where
  | done : Bool → GameState → Events → PhaseOutcome
  | blockedForever : GameState → Events → PhaseOutcome

/-- handle_answer_phase of src/neuro-quiplash.py, lines 136-200. All three
Selenium exception types, and any other exception (such as the TypeError
from testing membership in a None class attribute), lead to a False return;
when the page is active the handler registers the respond action, forces a
choice, and suspends on the played event. -/
def handleAnswerPhase (e : AnswerEnv) (subs : List (Except PyErr JVal))
    (st : GameState) : PhaseOutcome :=
  match e.statePage with
  | .error _ => .done false st Events.none
  | .ok _ =>
    match e.classAttr with
    | none => .done false st Events.none
    | some ca =>
      if strContains ca pageOffToken then .done false st Events.none
      else
        match e.questionText with
        | .error _ => .done false st Events.none
        | .ok _ =>
          match awaitDecision NQ.answer_action subs st with
          | (false, stw) => .blockedForever stw ⟨1, 1, []⟩
          | (true, stw) =>
            let str := { stw with played := false }
            match e.answerBox with
            | .error _ => .done false str ⟨1, 1, []⟩
            | .ok _ =>
              match e.submitButton with
              | .error _ => .done false str ⟨1, 1, [.answerTyped str.response]⟩
              | .ok _ => .done true str ⟨1, 1, [.answerTyped str.response]⟩

/-- handle_voting_phase of src/neuro-quiplash.py, lines 202-278. When the
vote page is active and not in the waiting sub-state and buttons are
present, the handler stores the button count, registers the cast_vote
action, forces a choice, suspends on the played event, and on wake clicks
vote_buttons[state.vote] (Python indexing, so a negative stored vote would
silently wrap). -/
def handleVotingPhase (e : VoteEnv) (subs : List (Except PyErr JVal))
    (st : GameState) : PhaseOutcome :=
  match e.statePage with
  | .error _ => .done false st Events.none
  | .ok _ =>
    match e.classAttr with
    | none => .done false st Events.none
    | some ca =>
      if strContains ca pageOffToken then .done false st Events.none
      else
        match e.voteText with
        | .error _ => .done false st Events.none
        | .ok vt =>
          if vt = waitForPlayersText then .done false st Events.none
          else
            match e.questionText with
            | .error _ => .done false st Events.none
            | .ok _ =>
              match e.voteButtons with
              | .error _ => .done false st Events.none
              | .ok btns =>
                if btns.length > 0 then
                  let st1 := { st with vote_option_count := btns.length }
                  match awaitDecision NQ.vote_action subs st1 with
                  | (false, stw) => .blockedForever stw ⟨1, 1, []⟩
                  | (true, stw) =>
                    let str := { stw with played := false }
                    match pyIndex btns str.vote with
                    | none => .done false str ⟨1, 1, []⟩
                    | some _ =>
                      match e.clickOutcome with
                      | .error _ => .done false str ⟨1, 1, [.voteClick str.vote btns.length]⟩
                      | .ok _ => .done true str ⟨1, 1, [.voteClick str.vote btns.length]⟩
                else .done false st Events.none

/-- The surface observations and agent submissions available to one
iteration of the main loop of src/neuro-quiplash.py run(), lines 425-431. -/
structure LoopEnv where
  ans : AnswerEnv
  ansSubs : List (Except PyErr JVal)
  vot : VoteEnv
  votSubs : List (Except PyErr JVal)

/-- How a stretch of the main loop ended: the supplied observations ran out
with the loop still polling, or the coordinator is suspended forever inside
an open decision window. -/
inductive LoopResult where
  | polling : GameState → LoopResult
  | blocked : GameState → LoopResult

/-- The main loop of src/neuro-quiplash.py run(), lines 425-431, driven by a
finite list of per-iteration observations: each iteration first runs
handle_answer_phase, and only when it returns False runs
handle_voting_phase; a True answer handling skips the voting handler for
that iteration. Events of all iterations are accumulated. -/
def loopRun : List LoopEnv → GameState → LoopResult × Events
  | [], st => (.polling st, Events.none)
  | e :: rest, st =>
    match handleAnswerPhase e.ans e.ansSubs st with
    | .blockedForever st' ev => (.blocked st', ev)
    | .done true st' ev =>
      let r := loopRun rest st'
      (r.1, ev.add r.2)
    | .done false st' ev =>
      match handleVotingPhase e.vot e.votSubs st' with
      | .blockedForever st'' ev2 => (.blocked st'', ev.add ev2)
      | .done _ st'' ev2 =>
        let r := loopRun rest st''
        (r.1, (ev.add ev2).add r.2)

/-- Acceptance condition for a vote submission as the spec states it
(for comparison with the code): the payload decodes to an object whose vote
entry is an integer v with 1 ≤ v ≤ voteOptionCount. -/
def voteAcceptSpec (dr : Except PyErr JVal) (count : Nat) : Bool :=
  match dr with
  | .ok (.jobj l) =>
    match objGet l voteKey with
    | some (.jint v) => decide (1 ≤ v ∧ v ≤ (count : Int))
    | _ => false
  | _ => false

/-- Acceptance condition for a name as the spec states it (for comparison
with the code): 0 < length(n) ≤ MAX_NAME_LENGTH. -/
def nameAcceptSpec (n : String) : Bool :=
  0 < n.length && n.length ≤ MAX_NAME_LENGTH

/-- The message produced by the handle_json decorator for a failed decode. -/
def pyErrMsgNQ : PyErr → String
  | .jsonDecodeError m => "Invalid JSON: " ++ m
  | .otherError m => "Unexpected error: " ++ m

/-- The answer-phase page is detected as active: the container element is
found and its class attribute lacks the pt-page-off marker. -/
def ansActive (a : AnswerEnv) : Prop :=
  a.statePage = .ok () ∧ ∃ ca, a.classAttr = some ca ∧ strContains ca pageOffToken = false

/-- The answer-phase page is detected as inactive (handler returns False
before opening a window). -/
def ansIdle (a : AnswerEnv) : Prop :=
  (∃ er, a.statePage = .error er) ∨ a.classAttr = none ∨
    ∃ ca, a.classAttr = some ca ∧ strContains ca pageOffToken = true

/-- The voting page is detected as active proper: element found, marker
absent from the class, not in the waiting sub-state, and buttons present. -/
def votActive (v : VoteEnv) : Prop :=
  v.statePage = .ok () ∧
    (∃ ca, v.classAttr = some ca ∧ strContains ca pageOffToken = false) ∧
    (∃ vt, v.voteText = .ok vt ∧ vt ≠ waitForPlayersText) ∧
    (∃ qt, v.questionText = .ok qt) ∧
    ∃ btns, v.voteButtons = .ok btns ∧ btns.length > 0

/-- The voting page is detected as inactive (handler returns False before
opening a window). -/
def votIdle (v : VoteEnv) : Prop :=
  (∃ er, v.statePage = .error er) ∨ v.classAttr = none ∨
    ∃ ca, v.classAttr = some ca ∧ strContains ca pageOffToken = true

/-- Every vote-button click performed in this stretch of the run used a
zero-based index within the bounds of the button list it indexed. -/
def clicksInBounds (ev : Events) : Prop :=
  ∀ i n, ApplyEv.voteClick i n ∈ ev.applies → 0 ≤ i ∧ i < (n : Int)

def twoStr : String := "2"

def threeAndABit : String := "thirteenchars"

def bobStr : String := "Bob"

def becauseStr : String := "Because"

def badCode : String := "1234"

def goodCode : String := "abcd"

def qCount3 : QState := { QState.init with vote_option_count := 3 }

def stCount3 : GameState := { GameState.init with vote_option_count := 3 }

def activeClass : String := "pt-page some-other-class"

def offClass : String := "state pt-page-off"

def sampleQuestion : String := "Why?"

/-- A concrete answer-phase observation with the page active and every
lookup succeeding. -/
def demoAnsActive : AnswerEnv :=
  ⟨.ok (), some activeClass, .ok sampleQuestion, .ok (), .ok ()⟩

/-- A concrete answer-phase observation with the page marked off. -/
def demoAnsOff : AnswerEnv :=
  ⟨.ok (), some offClass, .ok sampleQuestion, .ok (), .ok ()⟩

/-- A concrete answer-phase observation where the container element is
missing (NoSuchElementException on the find_element call). -/
def demoAnsMissing : AnswerEnv :=
  ⟨.error .noSuchElement, some activeClass, .ok sampleQuestion, .ok (), .ok ()⟩

/-- A concrete answer-phase observation with the page active but the
question-text element missing. -/
def demoAnsNoQuestion : AnswerEnv :=
  ⟨.ok (), some activeClass, .error .noSuchElement, .ok (), .ok ()⟩

def demoButtons : List String := ["alpha", "beta", "gamma"]

/-- A concrete voting observation with the page active, three buttons and a
clickable target. -/
def demoVoteActive : VoteEnv :=
  ⟨.ok (), some activeClass, .ok sampleQuestion, .ok sampleQuestion, .ok demoButtons, .ok ()⟩

/-- A concrete voting observation with the vote page marked off. -/
def demoVoteOff : VoteEnv :=
  ⟨.ok (), some offClass, .ok sampleQuestion, .ok sampleQuestion, .ok demoButtons, .ok ()⟩

/-- A concrete voting observation where the container element is missing. -/
def demoVoteMissing : VoteEnv :=
  ⟨.error .noSuchElement, some activeClass, .ok sampleQuestion, .ok sampleQuestion, .ok demoButtons, .ok ()⟩

/-- A submission carrying the answer Because. -/
def demoAnswerSub : Except PyErr JVal := .ok (.jobj [(answerKey, .jstr becauseStr)])

/-- A submission carrying the vote 2 (one-based). -/
def demoVoteSub : Except PyErr JVal := .ok (.jobj [(voteKey, .jint 2)])

/-- A loop iteration that stays in the answer phase and delivers no
submission: the coordinator opens one window and suspends. -/
def demoLoopAnsWait : LoopEnv := ⟨demoAnsActive, [], demoVoteOff, []⟩

/-- A loop iteration in the answer phase whose question lookup fails. -/
def demoLoopAnsNoQ : LoopEnv := ⟨demoAnsNoQuestion, [], demoVoteOff, []⟩

/-- A loop iteration in the voting phase that casts vote 2 among the three
demo buttons. -/
def demoLoopVote : LoopEnv := ⟨demoAnsOff, [], demoVoteActive, [demoVoteSub]⟩

/-- A loop iteration that stays in the voting phase and delivers no
submission. -/
def demoLoopVoteWait : LoopEnv := ⟨demoAnsOff, [], demoVoteActive, []⟩

/-- A concrete voting observation in the waiting-for-other-players
sub-state. -/
def demoVoteWaiting : VoteEnv :=
  ⟨.ok (), some activeClass, .ok waitForPlayersText, .ok sampleQuestion,
    .ok demoButtons, .ok ()⟩

/-- A loop iteration polling the voting phase in its waiting sub-state. -/
def demoLoopVoteWaiting : LoopEnv := ⟨demoAnsOff, [], demoVoteWaiting, []⟩

def votPhase (v : VoteEnv) : Prop :=
  v.statePage = .ok () ∧ ∃ ca, v.classAttr = some ca ∧ strContains ca pageOffToken = false

/-- The safety condition threaded through the loop: reachable outcomes leave
the ready-signal disarmed on return and every vote click performed used an
in-bounds index. -/
def outcomeClicksOk : PhaseOutcome → Prop
  | .done _ st ev => st.played = false ∧ clicksInBounds ev
  | .blockedForever _ ev => clicksInBounds ev

theorem clicksInBounds_none : clicksInBounds Events.none := by
  intro i n hin
  simp [Events.none] at hin


/-! ### Supporting lemmas and claim theorems -/

theorem set_name_body_cases (data : JVal) (st : GameState) :
    (∃ m, NQ.set_name_action_body data st = .exc m st) ∨
    (∃ m, NQ.set_name_action_body data st = .ret false m st) ∨
    (∃ v, NQ.set_name_action_body data st =
      .ret true ("state.username = " ++ pyRepr v)
        { st with username := some v, played := true }) := by
  unfold NQ.set_name_action_body
  repeat' split
  all_goals
    first
      | exact Or.inl ⟨_, rfl⟩
      | exact Or.inr (Or.inl ⟨_, rfl⟩)
      | exact Or.inr (Or.inr ⟨_, rfl⟩)

theorem answer_body_cases (data : JVal) (st : GameState) :
    (∃ m, NQ.answer_action_body data st = .exc m st) ∨
    (∃ m, NQ.answer_action_body data st = .ret false m st) ∨
    (∃ v, NQ.answer_action_body data st =
      .ret true ("state.response = " ++ pyRepr v)
        { st with response := some v, played := true }) := by
  unfold NQ.answer_action_body
  repeat' split
  all_goals
    first
      | exact Or.inl ⟨_, rfl⟩
      | exact Or.inr (Or.inl ⟨_, rfl⟩)
      | exact Or.inr (Or.inr ⟨_, rfl⟩)

theorem vote_body_cases (data : JVal) (st : GameState) :
    (∃ m, NQ.vote_action_body data st = .exc m st) ∨
    (∃ m, NQ.vote_action_body data st = .ret false m st) ∨
    (∃ n : Int, pySubscript data voteKey = .ok (.jint n) ∧ 1 ≤ n ∧
      n ≤ (st.vote_option_count : Int) ∧
      NQ.vote_action_body data st =
        .ret true ("state.vote = " ++ toString (n - 1))
          { st with vote := n - 1, played := true }) := by
  unfold NQ.vote_action_body
  repeat' split
  all_goals
    first
      | exact Or.inl ⟨_, rfl⟩
      | exact Or.inr (Or.inl ⟨_, rfl⟩)
      | (refine Or.inr (Or.inr ⟨_, ?_, ?_, ?_, rfl⟩) <;> first | assumption | omega)

theorem q_set_name_cases (dr : Except PyErr JVal) (st : QState) :
    (∃ m, Q.set_name_action dr st = .exc m st) ∨
    (∃ m, Q.set_name_action dr st = .ret false m st) ∨
    (∃ v, Q.set_name_action dr st =
      .ret true ("data[\"name\"] = " ++ pyRepr v)
        { st with username := v, played := true }) := by
  unfold Q.set_name_action
  repeat' split
  all_goals
    first
      | exact Or.inl ⟨_, rfl⟩
      | exact Or.inr (Or.inl ⟨_, rfl⟩)
      | exact Or.inr (Or.inr ⟨_, rfl⟩)

theorem q_answer_cases (dr : Except PyErr JVal) (st : QState) :
    (∃ m, Q.answer_action dr st = .exc m st) ∨
    (∃ m, Q.answer_action dr st = .ret false m st) ∨
    (∃ v, Q.answer_action dr st =
      .ret true ("data[\"answer\"] = " ++ pyRepr v)
        { st with response := v, played := true }) := by
  unfold Q.answer_action
  repeat' split
  all_goals
    first
      | exact Or.inl ⟨_, rfl⟩
      | exact Or.inr (Or.inl ⟨_, rfl⟩)
      | exact Or.inr (Or.inr ⟨_, rfl⟩)

theorem q_vote_cases (dr : Except PyErr JVal) (st : QState) :
    (∃ m, Q.vote_action dr st = .exc m st) ∨
    (∃ m, Q.vote_action dr st = .ret false m st) ∨
    (∃ n : Int, 1 ≤ n ∧ n ≤ (st.vote_option_count : Int) ∧
      Q.vote_action dr st =
        .ret true ("vote = " ++ toString (n - 1))
          { st with vote := n - 1, played := true }) := by
  unfold Q.vote_action
  repeat' split
  all_goals
    first
      | exact Or.inl ⟨_, rfl⟩
      | exact Or.inr (Or.inl ⟨_, rfl⟩)
      | (refine Or.inr (Or.inr ⟨_, ?_, ?_, rfl⟩) <;> omega)

/-- C10: each handler of src/neuro-quiplash.py writes at most its own
pending-decision field plus the played flag: every other GameState field is
unchanged by the invocation. -/
theorem C10_handler_frame (dr : Except PyErr JVal) (st : GameState) :
    ((NQ.set_name_action dr st).2.response = st.response ∧
      (NQ.set_name_action dr st).2.vote = st.vote ∧
      (NQ.set_name_action dr st).2.vote_option_count = st.vote_option_count) ∧
    ((NQ.answer_action dr st).2.username = st.username ∧
      (NQ.answer_action dr st).2.vote = st.vote ∧
      (NQ.answer_action dr st).2.vote_option_count = st.vote_option_count) ∧
    ((NQ.vote_action dr st).2.username = st.username ∧
      (NQ.vote_action dr st).2.response = st.response ∧
      (NQ.vote_action dr st).2.vote_option_count = st.vote_option_count) := by
  refine ⟨?_, ?_, ?_⟩
  · rcases dr with e | data
    · cases e <;> simp [NQ.set_name_action, NQ.handle_json]
    · rcases set_name_body_cases data st with ⟨m, h⟩ | ⟨m, h⟩ | ⟨v, h⟩ <;>
        simp [NQ.set_name_action, NQ.handle_json, h]
  · rcases dr with e | data
    · cases e <;> simp [NQ.answer_action, NQ.handle_json]
    · rcases answer_body_cases data st with ⟨m, h⟩ | ⟨m, h⟩ | ⟨v, h⟩ <;>
        simp [NQ.answer_action, NQ.handle_json, h]
  · rcases dr with e | data
    · cases e <;> simp [NQ.vote_action, NQ.handle_json]
    · rcases vote_body_cases data st with ⟨m, h⟩ | ⟨m, h⟩ | ⟨n, _, _, _, h⟩ <;>
        simp [NQ.vote_action, NQ.handle_json, h]

/-- C3: a rejected submission leaves the session state (pending fields and
the ready-signal alike) exactly as it was, in all six handlers. -/
theorem C3_rejection_atomic :
    (∀ dr st, (NQ.set_name_action dr st).1.1 = false → (NQ.set_name_action dr st).2 = st) ∧
    (∀ dr st, (NQ.answer_action dr st).1.1 = false → (NQ.answer_action dr st).2 = st) ∧
    (∀ dr st, (NQ.vote_action dr st).1.1 = false → (NQ.vote_action dr st).2 = st) ∧
    (∀ dr st, (Q.set_name_action dr st).success = false → (Q.set_name_action dr st).state = st) ∧
    (∀ dr st, (Q.answer_action dr st).success = false → (Q.answer_action dr st).state = st) ∧
    (∀ dr st, (Q.vote_action dr st).success = false → (Q.vote_action dr st).state = st) := by
  refine ⟨?_, ?_, ?_, ?_, ?_, ?_⟩
  · intro dr st hrej
    rcases dr with e | data
    · cases e <;> simp [NQ.set_name_action, NQ.handle_json]
    · rcases set_name_body_cases data st with ⟨m, h⟩ | ⟨m, h⟩ | ⟨v, h⟩ <;>
        simp_all [NQ.set_name_action, NQ.handle_json, h]
  · intro dr st hrej
    rcases dr with e | data
    · cases e <;> simp [NQ.answer_action, NQ.handle_json]
    · rcases answer_body_cases data st with ⟨m, h⟩ | ⟨m, h⟩ | ⟨v, h⟩ <;>
        simp_all [NQ.answer_action, NQ.handle_json, h]
  · intro dr st hrej
    rcases dr with e | data
    · cases e <;> simp [NQ.vote_action, NQ.handle_json]
    · rcases vote_body_cases data st with ⟨m, h⟩ | ⟨m, h⟩ | ⟨n, _, _, _, h⟩ <;>
        simp_all [NQ.vote_action, NQ.handle_json, h]
  · intro dr st hrej
    rcases q_set_name_cases dr st with ⟨m, h⟩ | ⟨m, h⟩ | ⟨v, h⟩ <;>
      simp_all [h, HRes.success, HRes.state]
  · intro dr st hrej
    rcases q_answer_cases dr st with ⟨m, h⟩ | ⟨m, h⟩ | ⟨v, h⟩ <;>
      simp_all [h, HRes.success, HRes.state]
  · intro dr st hrej
    rcases q_vote_cases dr st with ⟨m, h⟩ | ⟨m, h⟩ | ⟨n, _, _, h⟩ <;>
      simp_all [h, HRes.success, HRes.state]

/-- C3 witness: a concrete rejected vote (out of range) leaves the concrete
state unchanged. -/
theorem C3_rejection_atomic_witness :
    (NQ.vote_action (.ok (.jobj [(voteKey, .jint 7)])) stCount3).1.1 = false ∧
    (NQ.vote_action (.ok (.jobj [(voteKey, .jint 7)])) stCount3).2 = stCount3 := by
  exact ⟨rfl, C3_rejection_atomic.2.2.1 (.ok (.jobj [(voteKey, .jint 7)])) stCount3 rfl⟩

/-- C6: any submission whose JSON decoding failed is answered with a
rejection message and cannot crash the session: every handler returns
normally with success False and the state unchanged. -/
theorem C6_malformed_json_rejected (e : PyErr) (st : GameState) (qst : QState) :
    NQ.set_name_action (.error e) st = ((false, pyErrMsgNQ e), st) ∧
    NQ.answer_action (.error e) st = ((false, pyErrMsgNQ e), st) ∧
    NQ.vote_action (.error e) st = ((false, pyErrMsgNQ e), st) ∧
    Q.set_name_action (.error e) qst = .ret false msgInvalidJsonQ qst ∧
    Q.answer_action (.error e) qst = .ret false msgInvalidJsonQ qst ∧
    Q.vote_action (.error e) qst = .ret false msgInvalidJsonQ qst := by
  cases e <;> exact ⟨rfl, rfl, rfl, rfl, rfl, rfl⟩

theorem nq_vote_flag (dr : Except PyErr JVal) (st : GameState) :
    (NQ.vote_action dr st).1.1 = voteAcceptSpec dr st.vote_option_count := by
  rcases dr with e | data
  · cases e <;> rfl
  · cases data with
    | jnull => rfl
    | jbool b => rfl
    | jint n => rfl
    | jstr s =>
      cases hsc : strContains s voteKey <;>
        simp [NQ.vote_action, NQ.handle_json, NQ.vote_action_body, pyContains,
          pySubscript, hsc, voteAcceptSpec]
    | jarr l =>
      cases hsc : jarrHasStr l voteKey <;>
        simp [NQ.vote_action, NQ.handle_json, NQ.vote_action_body, pyContains,
          pySubscript, hsc, voteAcceptSpec]
    | jobj l =>
      cases hv : objGet l voteKey with
      | none =>
        simp [NQ.vote_action, NQ.handle_json, NQ.vote_action_body, pyContains,
          pySubscript, hv, voteAcceptSpec]
      | some v =>
        cases v with
        | jint n =>
          by_cases hrange : n ≤ 0 ∨ n > (st.vote_option_count : Int)
          · have hd : decide (1 ≤ n ∧ n ≤ (st.vote_option_count : Int)) = false := by
              simp only [decide_eq_false_iff_not]
              omega
            simp [NQ.vote_action, NQ.handle_json, NQ.vote_action_body, pyContains,
              pySubscript, hv, voteAcceptSpec, hrange, hd]
          · have hd : decide (1 ≤ n ∧ n ≤ (st.vote_option_count : Int)) = true := by
              simp only [decide_eq_true_eq]
              omega
            simp [NQ.vote_action, NQ.handle_json, NQ.vote_action_body, pyContains,
              pySubscript, hv, voteAcceptSpec, hrange, hd]
        | jnull =>
          simp [NQ.vote_action, NQ.handle_json, NQ.vote_action_body, pyContains,
            pySubscript, hv, voteAcceptSpec]
        | jbool b =>
          simp [NQ.vote_action, NQ.handle_json, NQ.vote_action_body, pyContains,
            pySubscript, hv, voteAcceptSpec]
        | jstr s =>
          simp [NQ.vote_action, NQ.handle_json, NQ.vote_action_body, pyContains,
            pySubscript, hv, voteAcceptSpec]
        | jarr l2 =>
          simp [NQ.vote_action, NQ.handle_json, NQ.vote_action_body, pyContains,
            pySubscript, hv, voteAcceptSpec]
        | jobj l2 =>
          simp [NQ.vote_action, NQ.handle_json, NQ.vote_action_body, pyContains,
            pySubscript, hv, voteAcceptSpec]

theorem nq_vote_accept_eq (l : List (String × JVal)) (n : Int) (st : GameState)
    (hv : objGet l voteKey = some (.jint n)) (h1 : 1 ≤ n)
    (h2 : n ≤ (st.vote_option_count : Int)) :
    NQ.vote_action (.ok (.jobj l)) st =
      ((true, "state.vote = " ++ toString (n - 1)),
        { st with vote := n - 1, played := true }) := by
  have hrange : ¬(n ≤ 0 ∨ n > (st.vote_option_count : Int)) := by omega
  simp [NQ.vote_action, NQ.handle_json, NQ.vote_action_body, pyContains,
    pySubscript, hv, hrange]

theorem nq_vote_wrongtype_eq (l : List (String × JVal)) (v : JVal) (st : GameState)
    (hv : objGet l voteKey = some v) (hni : ∀ n, v ≠ .jint n) :
    NQ.vote_action (.ok (.jobj l)) st = ((false, msgVoteNotInt), st) := by
  cases v with
  | jint n => exact absurd rfl (hni n)
  | jnull => simp [NQ.vote_action, NQ.handle_json, NQ.vote_action_body, pyContains, pySubscript, hv]
  | jbool b => simp [NQ.vote_action, NQ.handle_json, NQ.vote_action_body, pyContains, pySubscript, hv]
  | jstr s => simp [NQ.vote_action, NQ.handle_json, NQ.vote_action_body, pyContains, pySubscript, hv]
  | jarr l2 => simp [NQ.vote_action, NQ.handle_json, NQ.vote_action_body, pyContains, pySubscript, hv]
  | jobj l2 => simp [NQ.vote_action, NQ.handle_json, NQ.vote_action_body, pyContains, pySubscript, hv]

theorem nq_vote_range_eq (l : List (String × JVal)) (n : Int) (st : GameState)
    (hv : objGet l voteKey = some (.jint n))
    (hout : n ≤ 0 ∨ n > (st.vote_option_count : Int)) :
    NQ.vote_action (.ok (.jobj l)) st =
      ((false, msgVoteRange st.vote_option_count), st) := by
  simp [NQ.vote_action, NQ.handle_json, NQ.vote_action_body, pyContains,
    pySubscript, hv, hout]

theorem q_vote_numeric_string_accept (l : List (String × JVal)) (s : String)
    (n : Int) (st : QState) (hv : objGet l voteKey = some (.jstr s))
    (hp : parseIntString s = some n) (h1 : 1 ≤ n)
    (h2 : n ≤ (st.vote_option_count : Int)) :
    Q.vote_action (.ok (.jobj l)) st =
      .ret true ("vote = " ++ toString (n - 1))
        { st with vote := n - 1, played := true } := by
  have hrange : ¬(n ≤ 0 ∨ n > (st.vote_option_count : Int)) := by omega
  simp [Q.vote_action, pyContains, pySubscript, pyToInt, Except.bind, hv, hp, hrange]

theorem vote_msgs_distinct (c : Nat) : msgVoteNotInt ≠ msgVoteRange c := by
  intro h
  have e1 : msgVoteNotInt.length = 26 := rfl
  have a1 : ("Invalid choice. Choices are from 1 to ").length = 38 := rfl
  have a2 : (", inclusive.").length = 12 := rfl
  have e2 : (msgVoteRange c).length = 50 + (toString c).length := by
    unfold msgVoteRange
    rw [String.length_append, String.length_append, a1, a2]
    omega
  rw [h, e2] at e1
  omega

/-- C1 (amended): in src/neuro-quiplash.py the vote handler accepts exactly
the submissions whose payload is an object whose vote entry has int type and
value in 1..vote_option_count, storing the zero-based index and arming the
signal, with the wrong-type and out-of-range rejections carrying distinct
messages; the vote handler of src/quiplash.py additionally accepts any
int()-coercible value, for example numeric strings. -/
theorem C1_vote_validation :
    (∀ dr st, (NQ.vote_action dr st).1.1 = voteAcceptSpec dr st.vote_option_count) ∧
    (∀ l n st, objGet l voteKey = some (.jint n) → 1 ≤ n →
      n ≤ (st.vote_option_count : Int) →
      NQ.vote_action (.ok (.jobj l)) st =
        ((true, "state.vote = " ++ toString (n - 1)),
          { st with vote := n - 1, played := true })) ∧
    (∀ l v st, objGet l voteKey = some v → (∀ n, v ≠ .jint n) →
      NQ.vote_action (.ok (.jobj l)) st = ((false, msgVoteNotInt), st)) ∧
    (∀ l n st, objGet l voteKey = some (.jint n) →
      (n ≤ 0 ∨ n > (st.vote_option_count : Int)) →
      NQ.vote_action (.ok (.jobj l)) st =
        ((false, msgVoteRange st.vote_option_count), st)) ∧
    (∀ c, msgVoteNotInt ≠ msgVoteRange c) ∧
    (∀ l s n st, objGet l voteKey = some (.jstr s) → parseIntString s = some n →
      1 ≤ n → n ≤ (st.vote_option_count : Int) →
      Q.vote_action (.ok (.jobj l)) st =
        .ret true ("vote = " ++ toString (n - 1))
          { st with vote := n - 1, played := true }) :=
  ⟨nq_vote_flag, nq_vote_accept_eq, nq_vote_wrongtype_eq, nq_vote_range_eq,
    vote_msgs_distinct, q_vote_numeric_string_accept⟩

/-- C1 counterexample: the vote handler of src/quiplash.py accepts the
non-integer submission vote = "2" when three options are available, storing
index 1 and arming the signal. -/
theorem C1_counterexample :
    Q.vote_action (.ok (.jobj [(voteKey, .jstr twoStr)])) qCount3 =
      .ret true ("vote = 1") { qCount3 with vote := 1, played := true } ∧
    (∀ n, JVal.jstr twoStr ≠ .jint n) :=
  ⟨rfl, fun _n h => JVal.noConfusion h⟩

/-- C1 witness: the amended theorem applied at concrete submissions: vote 2
of 3 accepted and stored as index 1, vote "2" rejected as non-integer,
vote 4 of 3 rejected as out of range. -/
theorem C1_vote_validation_witness :
    NQ.vote_action (.ok (.jobj [(voteKey, .jint 2)])) stCount3 =
      ((true, "state.vote = " ++ toString ((2 : Int) - 1)),
        { stCount3 with vote := (2 : Int) - 1, played := true }) ∧
    NQ.vote_action (.ok (.jobj [(voteKey, .jstr twoStr)])) stCount3 =
      ((false, msgVoteNotInt), stCount3) ∧
    NQ.vote_action (.ok (.jobj [(voteKey, .jint 4)])) stCount3 =
      ((false, msgVoteRange stCount3.vote_option_count), stCount3) :=
  ⟨C1_vote_validation.2.1 [(voteKey, .jint 2)] 2 stCount3 rfl (by decide) (by decide),
   C1_vote_validation.2.2.1 [(voteKey, .jstr twoStr)] (.jstr twoStr) stCount3 rfl
     (fun n h => JVal.noConfusion h),
   C1_vote_validation.2.2.2.1 [(voteKey, .jint 4)] 4 stCount3 rfl (by decide)⟩

theorem nq_name_flag (l : List (String × JVal)) (n : String) (st : GameState)
    (h : objGet l nameKey = some (.jstr n)) :
    (NQ.set_name_action (.ok (.jobj l)) st).1.1 = nameAcceptSpec n := by
  by_cases h0 : n.length = 0
  · simp [NQ.set_name_action, NQ.handle_json, NQ.set_name_action_body, pyContains,
      pySubscript, pyLen, h, h0, nameAcceptSpec]
  · by_cases hle : n.length ≤ MAX_NAME_LENGTH
    · simp only [NQ.set_name_action, NQ.handle_json, NQ.set_name_action_body, pyContains,
        pySubscript, pyLen, h, Option.isSome_some, h0, hle, if_false, if_true, ite_false,
        ite_true, nameAcceptSpec]
      simp [h0, hle]
      omega
    · simp only [NQ.set_name_action, NQ.handle_json, NQ.set_name_action_body, pyContains,
        pySubscript, pyLen, h, Option.isSome_some, h0, hle, nameAcceptSpec]
      simp [h0, hle]

theorem nq_name_accept_eq (l : List (String × JVal)) (n : String) (st : GameState)
    (h : objGet l nameKey = some (.jstr n)) (h0 : 0 < n.length)
    (hle : n.length ≤ MAX_NAME_LENGTH) :
    NQ.set_name_action (.ok (.jobj l)) st =
      ((true, "state.username = " ++ pyRepr (.jstr n)),
        { st with username := some (.jstr n), played := true }) := by
  have hz : ¬(n.length = 0) := by omega
  simp [NQ.set_name_action, NQ.handle_json, NQ.set_name_action_body, pyContains,
    pySubscript, pyLen, h, hz, hle]

theorem nq_name_blank_eq (l : List (String × JVal)) (n : String) (st : GameState)
    (h : objGet l nameKey = some (.jstr n)) (h0 : n.length = 0) :
    NQ.set_name_action (.ok (.jobj l)) st = ((false, msgNameBlank), st) := by
  simp [NQ.set_name_action, NQ.handle_json, NQ.set_name_action_body, pyContains,
    pySubscript, pyLen, h, h0]

theorem nq_name_toolong_eq (l : List (String × JVal)) (n : String) (st : GameState)
    (h : objGet l nameKey = some (.jstr n)) (hgt : MAX_NAME_LENGTH < n.length) :
    NQ.set_name_action (.ok (.jobj l)) st = ((false, msgNameTooLong n.length), st) := by
  have hz : ¬(n.length = 0) := by
    unfold MAX_NAME_LENGTH at hgt
    omega
  have hle : ¬(n.length ≤ MAX_NAME_LENGTH) := by omega
  simp [NQ.set_name_action, NQ.handle_json, NQ.set_name_action_body, pyContains,
    pySubscript, pyLen, h, hz, hle]

theorem q_name_flag (l : List (String × JVal)) (n : String) (st : QState)
    (h : objGet l nameKey = some (.jstr n)) :
    (Q.set_name_action (.ok (.jobj l)) st).success = nameAcceptSpec n := by
  by_cases h0 : n.length = 0
  · simp [Q.set_name_action, pyContains, pySubscript, pyLen, h, h0, nameAcceptSpec,
      HRes.success]
  · by_cases hle : n.length ≤ MAX_NAME_LENGTH
    · simp only [Q.set_name_action, pyContains, pySubscript, pyLen, h, Option.isSome_some,
        h0, hle, nameAcceptSpec]
      simp [h0, hle, HRes.success]
      omega
    · simp only [Q.set_name_action, pyContains, pySubscript, pyLen, h, Option.isSome_some,
        h0, hle, nameAcceptSpec]
      simp [h0, hle, HRes.success]

theorem q_name_accept_eq (l : List (String × JVal)) (n : String) (st : QState)
    (h : objGet l nameKey = some (.jstr n)) (h0 : 0 < n.length)
    (hle : n.length ≤ MAX_NAME_LENGTH) :
    Q.set_name_action (.ok (.jobj l)) st =
      .ret true ("data[\"name\"] = " ++ pyRepr (.jstr n))
        { st with username := .jstr n, played := true } := by
  have hz : ¬(n.length = 0) := by omega
  simp [Q.set_name_action, pyContains, pySubscript, pyLen, h, hz, hle]

theorem q_name_blank_eq (l : List (String × JVal)) (n : String) (st : QState)
    (h : objGet l nameKey = some (.jstr n)) (h0 : n.length = 0) :
    Q.set_name_action (.ok (.jobj l)) st = .ret false msgNameBlank st := by
  simp [Q.set_name_action, pyContains, pySubscript, pyLen, h, h0]

theorem q_name_toolong_eq (l : List (String × JVal)) (n : String) (st : QState)
    (h : objGet l nameKey = some (.jstr n)) (hgt : MAX_NAME_LENGTH < n.length) :
    Q.set_name_action (.ok (.jobj l)) st = .ret false (msgNameTooLong n.length) st := by
  have hz : ¬(n.length = 0) := by
    unfold MAX_NAME_LENGTH at hgt
    omega
  have hle : ¬(n.length ≤ MAX_NAME_LENGTH) := by omega
  simp [Q.set_name_action, pyContains, pySubscript, pyLen, h, hz, hle]

/-- C4: in both source files the name handler accepts a submitted string n
exactly when 0 < length(n) ≤ MAX_NAME_LENGTH, stores it unchanged as the
pending name, rejects the empty string with the blank-name message, and
rejects longer strings with a message stating the 12-character limit. -/
theorem C4_name_validation :
    (∀ l n st, objGet l nameKey = some (.jstr n) →
      (NQ.set_name_action (.ok (.jobj l)) st).1.1 = nameAcceptSpec n) ∧
    (∀ l n st, objGet l nameKey = some (.jstr n) → 0 < n.length →
      n.length ≤ MAX_NAME_LENGTH →
      NQ.set_name_action (.ok (.jobj l)) st =
        ((true, "state.username = " ++ pyRepr (.jstr n)),
          { st with username := some (.jstr n), played := true })) ∧
    (∀ l n st, objGet l nameKey = some (.jstr n) → n.length = 0 →
      NQ.set_name_action (.ok (.jobj l)) st = ((false, msgNameBlank), st)) ∧
    (∀ l n st, objGet l nameKey = some (.jstr n) → MAX_NAME_LENGTH < n.length →
      NQ.set_name_action (.ok (.jobj l)) st = ((false, msgNameTooLong n.length), st)) ∧
    (∀ l n st, objGet l nameKey = some (.jstr n) →
      (Q.set_name_action (.ok (.jobj l)) st).success = nameAcceptSpec n) ∧
    (∀ l n st, objGet l nameKey = some (.jstr n) → 0 < n.length →
      n.length ≤ MAX_NAME_LENGTH →
      Q.set_name_action (.ok (.jobj l)) st =
        .ret true ("data[\"name\"] = " ++ pyRepr (.jstr n))
          { st with username := .jstr n, played := true }) ∧
    (∀ l n st, objGet l nameKey = some (.jstr n) → n.length = 0 →
      Q.set_name_action (.ok (.jobj l)) st = .ret false msgNameBlank st) ∧
    (∀ l n st, objGet l nameKey = some (.jstr n) → MAX_NAME_LENGTH < n.length →
      Q.set_name_action (.ok (.jobj l)) st = .ret false (msgNameTooLong n.length) st) :=
  ⟨nq_name_flag, nq_name_accept_eq, nq_name_blank_eq, nq_name_toolong_eq,
    q_name_flag, q_name_accept_eq, q_name_blank_eq, q_name_toolong_eq⟩

/-- C4 witness: the theorem applied at the concrete names Bob (accepted and
stored unchanged), the empty string (blank-name message) and a 13-character
name (too-long message naming the limit). -/
theorem C4_name_validation_witness :
    NQ.set_name_action (.ok (.jobj [(nameKey, .jstr bobStr)])) GameState.init =
      ((true, "state.username = " ++ pyRepr (.jstr bobStr)),
        { GameState.init with username := some (.jstr bobStr), played := true }) ∧
    NQ.set_name_action (.ok (.jobj [(nameKey, .jstr emptyS)])) GameState.init =
      ((false, msgNameBlank), GameState.init) ∧
    NQ.set_name_action (.ok (.jobj [(nameKey, .jstr threeAndABit)])) GameState.init =
      ((false, msgNameTooLong threeAndABit.length), GameState.init) ∧
    Q.set_name_action (.ok (.jobj [(nameKey, .jstr bobStr)])) QState.init =
      .ret true ("data[\"name\"] = " ++ pyRepr (.jstr bobStr))
        { QState.init with username := .jstr bobStr, played := true } :=
  ⟨C4_name_validation.2.1 [(nameKey, .jstr bobStr)] bobStr GameState.init rfl
      (by decide) (by decide),
   C4_name_validation.2.2.1 [(nameKey, .jstr emptyS)] emptyS GameState.init rfl rfl,
   C4_name_validation.2.2.2.1 [(nameKey, .jstr threeAndABit)] threeAndABit GameState.init rfl
     (by decide),
   C4_name_validation.2.2.2.2.2.1 [(nameKey, .jstr bobStr)] bobStr QState.init rfl
     (by decide) (by decide)⟩

/-- C8 (amended): src/neuro-quiplash.py proceeds to the join step exactly
when the stripped room-code input has length 4 and is alphabetic;
src/quiplash.py asserts only the length, so 4-character non-alphabetic
codes reach the join step there. -/
theorem C8_roomcode_validation :
    (∀ s, NQ.roomcode_gate s = true ↔
      ((pyStrip s).length = ROOMCODE_LENGTH ∧ pyIsAlpha (pyStrip s) = true)) ∧
    (∀ s, Q.roomcode_gate s = true ↔ s.length = 4) ∧
    (∃ s, Q.roomcode_gate s = true ∧ pyIsAlpha s = false) := by
  refine ⟨?_, ?_, ⟨badCode, by decide, by decide⟩⟩
  · intro s
    simp [NQ.roomcode_gate]
  · intro s
    simp [Q.roomcode_gate]

/-- C8 counterexample: the room-code check of src/quiplash.py accepts the
non-alphabetic input 1234, which therefore reaches the join step. -/
theorem C8_counterexample :
    Q.roomcode_gate badCode = true ∧ pyIsAlpha badCode = false := by
  decide

theorem events_none_add (b : Events) : Events.none.add b = b := by
  cases b
  simp [Events.add, Events.none]

theorem ansIdle_done (a : AnswerEnv) (subs : List (Except PyErr JVal))
    (st : GameState) (h : ansIdle a) :
    handleAnswerPhase a subs st = .done false st Events.none := by
  obtain ⟨sp, cao, qt, ab, sb⟩ := a
  rcases h with ⟨er, he⟩ | hnone | ⟨c, hc, hoff⟩
  · have he2 : sp = Except.error er := he
    subst he2
    rfl
  · have hn2 : cao = Option.none := hnone
    subst hn2
    cases sp <;> rfl
  · have hc2 : cao = some c := hc
    subst hc2
    cases sp <;> simp [handleAnswerPhase, hoff]

theorem votIdle_done (v : VoteEnv) (subs : List (Except PyErr JVal))
    (st : GameState) (h : votIdle v) :
    handleVotingPhase v subs st = .done false st Events.none := by
  obtain ⟨sp, cao, vt, qt, vb, co⟩ := v
  rcases h with ⟨er, he⟩ | hnone | ⟨c, hc, hoff⟩
  · have he2 : sp = Except.error er := he
    subst he2
    rfl
  · have hn2 : cao = Option.none := hnone
    subst hn2
    cases sp <;> rfl
  · have hc2 : cao = some c := hc
    subst hc2
    cases sp <;> simp [handleVotingPhase, hoff]

/-- C7: when the phase-marker element is missing, both phase handlers report
the phase as inactive (a plain False return with the state untouched and no
window opened), and the main loop simply proceeds to the next poll. -/
theorem C7_missing_marker_is_idle :
    (∀ er ca qt ab sb subs st,
      handleAnswerPhase ⟨.error er, ca, qt, ab, sb⟩ subs st = .done false st Events.none) ∧
    (∀ er ca vt qt vb co subs st,
      handleVotingPhase ⟨.error er, ca, vt, qt, vb, co⟩ subs st = .done false st Events.none) ∧
    (∀ er ca qt ab sb er2 ca2 vt qt2 vb co asubs vsubs rest st,
      loopRun (⟨⟨.error er, ca, qt, ab, sb⟩, asubs, ⟨.error er2, ca2, vt, qt2, vb, co⟩, vsubs⟩ :: rest) st
        = loopRun rest st) := by
  refine ⟨fun er ca qt ab sb subs st => rfl, fun er ca vt qt vb co subs st => rfl,
    fun er ca qt ab sb er2 ca2 vt qt2 vb co asubs vsubs rest st => ?_⟩
  simp [loopRun, handleAnswerPhase, handleVotingPhase, events_none_add]

/-- C2 counterexample: with the answer page active and no decision ever
delivered, the coordinator suspends forever inside the freshly opened
window; no timeout transition back to polling exists in the source
(state.played.wait() is a plain trio wait). -/
theorem C2_counterexample :
    handleAnswerPhase demoAnsActive [] GameState.init =
      .blockedForever GameState.init ⟨1, 1, []⟩ := rfl

/-- C2 (amended): the suspension on the ready-signal is unbounded. Whenever
an answer or vote window opens and no submission arms the signal, the
handler blocks forever instead of timing out back to the polling state. -/
theorem C2_wait_unbounded :
    (∀ ca qt ab sb st, strContains ca pageOffToken = false → st.played = false →
      handleAnswerPhase ⟨.ok (), some ca, .ok qt, ab, sb⟩ [] st =
        .blockedForever st ⟨1, 1, []⟩) ∧
    (∀ ca vt qt btns co st, strContains ca pageOffToken = false →
      vt ≠ waitForPlayersText → 0 < btns.length → st.played = false →
      handleVotingPhase ⟨.ok (), some ca, .ok vt, .ok qt, .ok btns, co⟩ [] st =
        .blockedForever { st with vote_option_count := btns.length } ⟨1, 1, []⟩) := by
  constructor
  · intro ca qt ab sb st hoff hp
    simp [handleAnswerPhase, hoff, awaitDecision, hp]
  · intro ca vt qt btns co st hoff hvt hlen hp
    simp [handleVotingPhase, hoff, hvt, hlen, awaitDecision, hp]

/-- C2 witness: the amended theorem applied at a concrete active answer
page, and at a concrete active voting page with three buttons. -/
theorem C2_wait_unbounded_witness :
    handleAnswerPhase demoAnsActive [] stCount3 = .blockedForever stCount3 ⟨1, 1, []⟩ ∧
    handleVotingPhase demoVoteActive [] GameState.init =
      .blockedForever { GameState.init with vote_option_count := demoButtons.length }
        ⟨1, 1, []⟩ :=
  ⟨C2_wait_unbounded.1 activeClass sampleQuestion (.ok ()) (.ok ()) stCount3
      (by decide) rfl,
   C2_wait_unbounded.2 activeClass sampleQuestion sampleQuestion demoButtons (.ok ())
      GameState.init (by decide) (by decide) (by decide) rfl⟩

theorem loop_ans_phase_persist (envs : List LoopEnv) (st : GameState)
    (hp : st.played = false)
    (hactive : ∀ e ∈ envs, ansActive e.ans ∧ e.ansSubs = [] ∧ votIdle e.vot) :
    (loopRun envs st).2.regs ≤ 1 ∧ (loopRun envs st).2.forces ≤ 1 ∧
      (loopRun envs st).2.applies = [] := by
  induction envs generalizing st with
  | nil => simp [loopRun, Events.none]
  | cons e rest ih =>
    obtain ⟨⟨hsp, ca, hca, hoff⟩, hsubs, hvid⟩ := hactive e (by simp)
    have hrest := fun x hx => hactive x (List.mem_cons_of_mem _ hx)
    have hvd := votIdle_done e.vot e.votSubs st hvid
    cases hqt : e.ans.questionText with
    | error er =>
      have hA : handleAnswerPhase e.ans e.ansSubs st = .done false st Events.none := by
        simp [handleAnswerPhase, hsp, hca, hoff, hqt]
      simp only [loopRun, hA, hvd, events_none_add]
      exact ih st hp hrest
    | ok q =>
      have hA : handleAnswerPhase e.ans e.ansSubs st = .blockedForever st ⟨1, 1, []⟩ := by
        simp [handleAnswerPhase, hsp, hca, hoff, hqt, hsubs, awaitDecision, hp]
      simp [loopRun, hA]

theorem loop_vote_phase_persist (envs : List LoopEnv) (st : GameState)
    (hp : st.played = false)
    (hactive : ∀ e ∈ envs, ansIdle e.ans ∧ votPhase e.vot ∧ e.votSubs = []) :
    (loopRun envs st).2.regs ≤ 1 ∧ (loopRun envs st).2.forces ≤ 1 ∧
      (loopRun envs st).2.applies = [] := by
  induction envs generalizing st with
  | nil => simp [loopRun, Events.none]
  | cons e rest ih =>
    obtain ⟨haid, ⟨hsp, ca, hca, hoff⟩, hsubs⟩ := hactive e (by simp)
    have hrest := fun x hx => hactive x (List.mem_cons_of_mem _ hx)
    have had := ansIdle_done e.ans e.ansSubs st haid
    cases hvt : e.vot.voteText with
    | error er =>
      have hV : handleVotingPhase e.vot e.votSubs st = .done false st Events.none := by
        simp [handleVotingPhase, hsp, hca, hoff, hvt]
      simp only [loopRun, had, hV, events_none_add]
      exact ih st hp hrest
    | ok vt =>
      by_cases hw : vt = waitForPlayersText
      · have hV : handleVotingPhase e.vot e.votSubs st = .done false st Events.none := by
          simp [handleVotingPhase, hsp, hca, hoff, hvt, hw]
        simp only [loopRun, had, hV, events_none_add]
        exact ih st hp hrest
      · cases hqt : e.vot.questionText with
        | error er =>
          have hV : handleVotingPhase e.vot e.votSubs st = .done false st Events.none := by
            simp [handleVotingPhase, hsp, hca, hoff, hvt, hw, hqt]
          simp only [loopRun, had, hV, events_none_add]
          exact ih st hp hrest
        | ok qt =>
          cases hvb : e.vot.voteButtons with
          | error er =>
            have hV : handleVotingPhase e.vot e.votSubs st = .done false st Events.none := by
              simp [handleVotingPhase, hsp, hca, hoff, hvt, hw, hqt, hvb]
            simp only [loopRun, had, hV, events_none_add]
            exact ih st hp hrest
          | ok btns =>
            by_cases hl : btns.length > 0
            · have hV : handleVotingPhase e.vot e.votSubs st =
                  .blockedForever { st with vote_option_count := btns.length } ⟨1, 1, []⟩ := by
                simp [handleVotingPhase, hsp, hca, hoff, hvt, hw, hqt, hvb, hl, hsubs,
                  awaitDecision, hp]
              simp [loopRun, had, hV, events_none_add]
            · have hV : handleVotingPhase e.vot e.votSubs st = .done false st Events.none := by
                simp [handleVotingPhase, hsp, hca, hoff, hvt, hw, hqt, hvb, hl]
              simp only [loopRun, had, hV, events_none_add]
              exact ih st hp hrest

/-- C5: as long as the surface stays in the same decision-bearing phase and
no decision is delivered, any number of poll iterations of the main loop
issues at most one action registration and one force-choice directive in
total (the single window in which the coordinator then suspends) and never
invokes the surface-application step. -/
theorem C5_no_window_reopen :
    (∀ envs st, st.played = false →
      (∀ e ∈ envs, ansActive e.ans ∧ e.ansSubs = [] ∧ votIdle e.vot) →
      (loopRun envs st).2.regs ≤ 1 ∧ (loopRun envs st).2.forces ≤ 1 ∧
        (loopRun envs st).2.applies = []) ∧
    (∀ envs st, st.played = false →
      (∀ e ∈ envs, ansIdle e.ans ∧ votPhase e.vot ∧ e.votSubs = []) →
      (loopRun envs st).2.regs ≤ 1 ∧ (loopRun envs st).2.forces ≤ 1 ∧
        (loopRun envs st).2.applies = []) :=
  ⟨loop_ans_phase_persist, loop_vote_phase_persist⟩

/-- C5 witness: two successive polls in the answer phase with no delivered
decision (the first failing the question lookup, the second opening the
single window), and two successive polls in the voting phase (the first in
the waiting sub-state): in both runs at most one registration, at most one
force-choice, and no surface application. -/
theorem C5_no_window_reopen_witness :
    ((loopRun [demoLoopAnsNoQ, demoLoopAnsWait] GameState.init).2.regs ≤ 1 ∧
      (loopRun [demoLoopAnsNoQ, demoLoopAnsWait] GameState.init).2.forces ≤ 1 ∧
      (loopRun [demoLoopAnsNoQ, demoLoopAnsWait] GameState.init).2.applies = []) ∧
    ((loopRun [demoLoopVoteWaiting, demoLoopVoteWait] GameState.init).2.regs ≤ 1 ∧
      (loopRun [demoLoopVoteWaiting, demoLoopVoteWait] GameState.init).2.forces ≤ 1 ∧
      (loopRun [demoLoopVoteWaiting, demoLoopVoteWait] GameState.init).2.applies = []) := by
  constructor
  · refine C5_no_window_reopen.1 [demoLoopAnsNoQ, demoLoopAnsWait] GameState.init rfl ?_
    intro e he
    simp only [List.mem_cons, List.not_mem_nil, or_false] at he
    rcases he with rfl | rfl
    · exact ⟨⟨rfl, activeClass, rfl, by decide⟩, rfl,
        Or.inr (Or.inr ⟨offClass, rfl, by decide⟩)⟩
    · exact ⟨⟨rfl, activeClass, rfl, by decide⟩, rfl,
        Or.inr (Or.inr ⟨offClass, rfl, by decide⟩)⟩
  · refine C5_no_window_reopen.2 [demoLoopVoteWaiting, demoLoopVoteWait] GameState.init rfl ?_
    intro e he
    simp only [List.mem_cons, List.not_mem_nil, or_false] at he
    rcases he with rfl | rfl
    · exact ⟨Or.inr (Or.inr ⟨offClass, rfl, by decide⟩), ⟨rfl, activeClass, rfl, by decide⟩, rfl⟩
    · exact ⟨Or.inr (Or.inr ⟨offClass, rfl, by decide⟩), ⟨rfl, activeClass, rfl, by decide⟩, rfl⟩

theorem clicksInBounds_add (a b : Events) (ha : clicksInBounds a)
    (hb : clicksInBounds b) : clicksInBounds (a.add b) := by
  intro i n hin
  rcases List.mem_append.mp hin with h | h
  · exact ha i n h
  · exact hb i n h

theorem awaitDecision_played (h : Except PyErr JVal → GameState → (Bool × String) × GameState)
    (subs : List (Except PyErr JVal)) (st : GameState) (hst : st.played = true) :
    awaitDecision h subs st = (true, st) := by
  cases subs <;> simp [awaitDecision, hst]

theorem nq_vote_step (s : Except PyErr JVal) (st : GameState) :
    (NQ.vote_action s st).2 = st ∨
    ∃ n : Int, 1 ≤ n ∧ n ≤ (st.vote_option_count : Int) ∧
      (NQ.vote_action s st).2 = { st with vote := n - 1, played := true } := by
  rcases s with e | data
  · cases e <;> simp [NQ.vote_action, NQ.handle_json]
  · rcases vote_body_cases data st with ⟨m, h⟩ | ⟨m, h⟩ | ⟨n, hsub, h1, h2, h⟩
    · simp [NQ.vote_action, NQ.handle_json, h]
    · simp [NQ.vote_action, NQ.handle_json, h]
    · exact Or.inr ⟨n, h1, h2, by simp [NQ.vote_action, NQ.handle_json, h]⟩

theorem nq_answer_step (s : Except PyErr JVal) (st : GameState) :
    (NQ.answer_action s st).2 = st ∨
    ∃ v, (NQ.answer_action s st).2 = { st with response := some v, played := true } := by
  rcases s with e | data
  · cases e <;> simp [NQ.answer_action, NQ.handle_json]
  · rcases answer_body_cases data st with ⟨m, h⟩ | ⟨m, h⟩ | ⟨v, h⟩
    · simp [NQ.answer_action, NQ.handle_json, h]
    · simp [NQ.answer_action, NQ.handle_json, h]
    · exact Or.inr ⟨v, by simp [NQ.answer_action, NQ.handle_json, h]⟩

theorem awaitDecision_vote_wake (subs : List (Except PyErr JVal)) (st : GameState)
    (hp : st.played = false) (stw : GameState)
    (h : awaitDecision NQ.vote_action subs st = (true, stw)) :
    0 ≤ stw.vote ∧ stw.vote < (stw.vote_option_count : Int) ∧
      stw.vote_option_count = st.vote_option_count := by
  induction subs generalizing st with
  | nil => simp [awaitDecision, hp] at h
  | cons s rest ih =>
    simp only [awaitDecision, hp, Bool.false_eq_true, if_false] at h
    rcases nq_vote_step s st with hkeep | ⟨n, h1, h2, hset⟩
    · rw [hkeep] at h
      exact ih st hp h
    · rw [hset] at h
      rw [awaitDecision_played _ rest _ (by simp)] at h
      simp only [Prod.mk.injEq, true_and] at h
      subst h
      refine ⟨by simp; omega, by simp; omega, by simp⟩

theorem clicksInBounds_open (r f : Nat) : clicksInBounds ⟨r, f, []⟩ := by
  intro i n hin
  simp at hin

theorem clicksInBounds_typed (r f : Nat) (v : Option JVal) :
    clicksInBounds ⟨r, f, [.answerTyped v]⟩ := by
  intro i n hin
  simp at hin

theorem handleAnswer_cases (e : AnswerEnv) (subs : List (Except PyErr JVal))
    (st : GameState) :
    handleAnswerPhase e subs st = .done false st Events.none ∨
    (∃ stw, awaitDecision NQ.answer_action subs st = (false, stw) ∧
      handleAnswerPhase e subs st = .blockedForever stw ⟨1, 1, []⟩) ∨
    (∃ stw b ev, awaitDecision NQ.answer_action subs st = (true, stw) ∧
      (ev = (⟨1, 1, []⟩ : Events) ∨ ev = ⟨1, 1, [.answerTyped stw.response]⟩) ∧
      handleAnswerPhase e subs st = .done b { stw with played := false } ev) := by
  dsimp only [handleAnswerPhase]
  repeat' split
  all_goals
    first
      | exact Or.inl rfl
      | exact Or.inr (Or.inl ⟨_, by assumption, rfl⟩)
      | exact Or.inr (Or.inr ⟨_, _, _, by assumption, Or.inl rfl, rfl⟩)
      | exact Or.inr (Or.inr ⟨_, _, _, by assumption, Or.inr rfl, rfl⟩)

theorem handleVoting_cases (e : VoteEnv) (subs : List (Except PyErr JVal))
    (st : GameState) :
    handleVotingPhase e subs st = .done false st Events.none ∨
    (∃ btns stw, e.voteButtons = .ok btns ∧
      awaitDecision NQ.vote_action subs { st with vote_option_count := btns.length } =
        (false, stw) ∧
      handleVotingPhase e subs st = .blockedForever stw ⟨1, 1, []⟩) ∨
    (∃ btns stw b ev, e.voteButtons = .ok btns ∧
      awaitDecision NQ.vote_action subs { st with vote_option_count := btns.length } =
        (true, stw) ∧
      (ev = (⟨1, 1, []⟩ : Events) ∨ ev = ⟨1, 1, [.voteClick stw.vote btns.length]⟩) ∧
      handleVotingPhase e subs st = .done b { stw with played := false } ev) := by
  dsimp only [handleVotingPhase]
  repeat' split
  all_goals
    first
      | exact Or.inl rfl
      | exact Or.inr (Or.inl ⟨_, _, by assumption, by assumption, rfl⟩)
      | exact Or.inr (Or.inr ⟨_, _, _, _, by assumption, by assumption, Or.inl rfl, rfl⟩)
      | exact Or.inr (Or.inr ⟨_, _, _, _, by assumption, by assumption, Or.inr rfl, rfl⟩)

theorem handleAnswer_safe (e : AnswerEnv) (subs : List (Except PyErr JVal))
    (st : GameState) (hp : st.played = false) :
    outcomeClicksOk (handleAnswerPhase e subs st) := by
  rcases handleAnswer_cases e subs st with h | ⟨stw, hw, h⟩ | ⟨stw, b, ev, hw, hev, h⟩
  · rw [h]
    exact ⟨hp, clicksInBounds_none⟩
  · rw [h]
    exact clicksInBounds_open 1 1
  · rw [h]
    rcases hev with rfl | rfl
    · exact ⟨rfl, clicksInBounds_open 1 1⟩
    · exact ⟨rfl, clicksInBounds_typed 1 1 stw.response⟩

theorem handleVoting_safe (e : VoteEnv) (subs : List (Except PyErr JVal))
    (st : GameState) (hp : st.played = false) :
    outcomeClicksOk (handleVotingPhase e subs st) := by
  rcases handleVoting_cases e subs st with h | ⟨btns, stw, hb, hw, h⟩ |
    ⟨btns, stw, b, ev, hb, hw, hev, h⟩
  · rw [h]
    exact ⟨hp, clicksInBounds_none⟩
  · rw [h]
    exact clicksInBounds_open 1 1
  · rw [h]
    have hst1 : ({ st with vote_option_count := btns.length } : GameState).played = false := hp
    obtain ⟨h0, hlt, hcnt⟩ := awaitDecision_vote_wake subs _ hst1 stw hw
    rcases hev with rfl | rfl
    · exact ⟨rfl, clicksInBounds_open 1 1⟩
    · refine ⟨rfl, ?_⟩
      intro i n hin
      simp only [List.mem_singleton, ApplyEv.voteClick.injEq] at hin
      obtain ⟨rfl, rfl⟩ := hin
      have : stw.vote_option_count = btns.length := hcnt
      constructor
      · exact h0
      · rw [← this]
        exact hlt

theorem loop_clicks_safe (envs : List LoopEnv) (st : GameState)
    (hp : st.played = false) : clicksInBounds (loopRun envs st).2 := by
  induction envs generalizing st with
  | nil =>
    intro i n hin
    simp [loopRun, Events.none] at hin
  | cons e rest ih =>
    have ha := handleAnswer_safe e.ans e.ansSubs st hp
    cases hA : handleAnswerPhase e.ans e.ansSubs st with
    | blockedForever st' ev =>
      rw [hA] at ha
      simp only [loopRun, hA]
      exact ha
    | done b st' ev =>
      rw [hA] at ha
      obtain ⟨hp', hev⟩ := ha
      cases b with
      | true =>
        simp only [loopRun, hA]
        exact clicksInBounds_add _ _ hev (ih st' hp')
      | false =>
        have hv := handleVoting_safe e.vot e.votSubs st' hp'
        cases hV : handleVotingPhase e.vot e.votSubs st' with
        | blockedForever st'' ev2 =>
          rw [hV] at hv
          simp only [loopRun, hA, hV]
          exact clicksInBounds_add _ _ hev hv
        | done b2 st'' ev2 =>
          rw [hV] at hv
          obtain ⟨hp'', hev2⟩ := hv
          simp only [loopRun, hA, hV]
          exact clicksInBounds_add _ _ (clicksInBounds_add _ _ hev hev2) (ih st'' hp'')

/-- C9: whenever the vote handler arms the ready-signal it has stored a
zero-based vote inside [0, vote_option_count); consequently every
vote-button click the coordinator ever performs indexes inside the button
list, and the -1 sentinel is never used for a click. -/
theorem C9_vote_click_safety :
    (∀ dr st, st.played = false → ((NQ.vote_action dr st).2).played = true →
      0 ≤ ((NQ.vote_action dr st).2).vote ∧
        ((NQ.vote_action dr st).2).vote < (st.vote_option_count : Int)) ∧
    (∀ envs st, st.played = false → clicksInBounds (loopRun envs st).2) := by
  constructor
  · intro dr st hp harm
    rcases nq_vote_step dr st with hkeep | ⟨n, h1, h2, hset⟩
    · rw [hkeep] at harm
      rw [harm] at hp
      exact absurd hp (by simp)
    · rw [hset]
      constructor
      · simp
        omega
      · simp
        omega
  · exact loop_clicks_safe

/-- C9 witness: a concrete run that casts vote 2 among three buttons: the
single click event uses index 1 against a 3-element list, and the theorem
certifies every click of the run in bounds. -/
theorem C9_vote_click_safety_witness :
    (loopRun [demoLoopVote] GameState.init).2.applies =
      [ApplyEv.voteClick 1 demoButtons.length] ∧
    clicksInBounds (loopRun [demoLoopVote] GameState.init).2 :=
  ⟨rfl, C9_vote_click_safety.2 [demoLoopVote] GameState.init rfl⟩

/-- C8 witness: the gate of src/neuro-quiplash.py applied through the
amended theorem at a concrete alphabetic code, plus its rejection of the
numeric code. -/
theorem C8_roomcode_validation_witness :
    NQ.roomcode_gate goodCode = true ∧ NQ.roomcode_gate badCode = false := by
  constructor
  · exact (C8_roomcode_validation.1 goodCode).mpr ⟨by decide, by decide⟩
  · cases hg : NQ.roomcode_gate badCode with
    | false => rfl
    | true =>
      have h2 := ((C8_roomcode_validation.1 badCode).mp hg).2
      have h3 : pyIsAlpha (pyStrip badCode) = false := by decide
      rw [h3] at h2
      exact absurd h2 (by simp)
